import Mathlib

/-!
# Verification of the GTFS-RT live-map server (`src/app.py`)

Shallow embedding of the ingest–enrich–serve pipeline:

* the static Reference Catalog built by `load_static_gtfs` with pandas
  (`routes.txt`, `stops.txt`, `trips.txt` read with `pd.read_csv`, indexed by
  their key columns and converted with `to_dict(orient="index")`);
* the upstream fetch `fetch_gtfs_rt` (`requests.get` + `raise_for_status` +
  `FeedMessage.ParseFromString`);
* the three JSON endpoints `api_vehicles`, `api_trip_updates`, `api_alerts`.

Modelling conventions, each justified next to its definition:

* A pandas cell is `CellVal`: either the missing-value marker NaN (what
  `pd.read_csv` stores for an empty field of a present column) or a string.
  Python truthiness of these values (`None` falsy, NaN truthy, `""` falsy,
  other strings truthy) is modelled explicitly because the code uses
  `x or y or ""` chains over them.
* A catalog row after `to_dict(orient="index")` is a Python dict; we model it
  as `Row := String → Option CellVal` (`none` = key absent from the dict).
* Protobuf messages: an unset sub-message field reads as the default instance
  of its type, and scalar fields default to `""` / `0` / `0.0`; optional
  sub-message presence is an `Option` with an explicit `get-or-default`
  accessor mirroring Python attribute access.
* Coordinates pass through the pipeline untouched (no arithmetic is performed
  on them), so they are modelled as exact rationals.
-/

/-- A pandas cell value as it appears inside a row dict produced by
`DataFrame.to_dict(orient="index")`: either the float NaN that `read_csv`
stores for an empty field (of a column that is present), or a string.
Purely numeric columns would be auto-typed to numbers by pandas; GTFS id and
name cells are modelled as strings. -/
inductive CellVal where
  | nan
  | str (s : String)
deriving DecidableEq, Repr

/-- A catalog row: the Python dict for one record, mapping a column name to
its cell value; `none` models a key that is absent from the dict (a column
that does not exist in the file). -/
def Row : Type := String → Option CellVal

/-- Python `{}` — the empty dict used as the default in
`TRIP_LOOKUP.get(trip_id, {})` and `STOP_LOOKUP.get(stu.stop_id, {})`. -/
def emptyRow : Row := fun _ => none

/-- Python truthiness of a value that is either absent (`None`), a pandas NaN
or a string: `None` and `""` are falsy, NaN is truthy (`bool(float("nan"))`
is `True` in Python), every other string is truthy. -/
def pyTruthy : Option CellVal → Bool
  | none => false
  | some .nan => true
  | some (.str s) => s ≠ ""

/-- Python `a or b`: the first operand if truthy, otherwise the second. -/
def pyOr (a b : Option CellVal) : Option CellVal :=
  if pyTruthy a then a else b

/-- Python `a or b or ""` as used for the route display name: the first
truthy operand, or the string `""` when both are falsy. -/
def orChainEmpty (a b : Option CellVal) : CellVal :=
  (pyOr (pyOr a b) (some (.str ""))).getD (.str "")

/-- Python `d.get(k, "")` on a row dict. -/
def rowGetStr (r : Row) (k : String) : CellVal :=
  (r k).getD (.str "")

/-- The three module-level lookup dicts `ROUTE_LOOKUP`, `STOP_LOOKUP`,
`TRIP_LOOKUP` built by `load_static_gtfs`.  They are keyed by the strings of
the respective key column (a NaN index entry produced by an empty key cell is
unreachable by any string lookup and is therefore not represented, see
`lookupRouteBy`). -/
structure Catalog where
  route_lookup : String → Option Row
  stop_lookup : String → Option Row
  trip_lookup : String → Option Row

/-- Python `route_id in ROUTE_LOOKUP` / `ROUTE_LOOKUP[route_id]` where the
key is the value obtained from `TRIP_LOOKUP.get(trip_id, {}).get("route_id", "")`
and may be a pandas NaN.  A float NaN key never matches a dict entry: NaN is
unequal to itself under `==`, and the identity fast path cannot hit because
the candidate NaN object comes from a different DataFrame than any NaN in the
index.  So a NaN key misses, and a string key is an ordinary dict lookup. -/
def lookupRouteBy (cat : Catalog) : CellVal → Option Row
  | .nan => none
  | .str s => cat.route_lookup s

/-! ## The decoded GTFS-Realtime feed (protobuf data model)

Only the fields read by `app.py` are represented.  For each optional
sub-message field the Python protobuf API returns the default instance when
the field is unset, which the accessors below mirror with `Option.getD`. -/

/-- `TripDescriptor`: `trip_id` is a protobuf string field, default `""`. -/
structure TripDescriptor where
  trip_id : String
deriving DecidableEq, Repr

/-- Default instance of `TripDescriptor` (all-unset message). -/
def TripDescriptor.dflt : TripDescriptor := { trip_id := "" }

/-- `Position` with `latitude` / `longitude`.  They are only carried through
the pipeline, never computed with, so exact rationals stand in for the wire
floats. -/
structure Position where
  latitude : ℚ
  longitude : ℚ
deriving DecidableEq, Repr

/-- Default instance of `Position`. -/
def Position.dflt : Position := { latitude := 0, longitude := 0 }

/-- `VehicleDescriptor`: only `label` is read, a string field, default `""`. -/
structure VehicleDescriptor where
  label : String
deriving DecidableEq, Repr

/-- Default instance of `VehicleDescriptor`. -/
def VehicleDescriptor.dflt : VehicleDescriptor := { label := "" }

/-- `VehiclePosition` as read by `api_vehicles`: the `trip`, `position` and
`vehicle` sub-messages, each possibly unset in the wire message. -/
structure VehiclePosition where
  trip : Option TripDescriptor
  pos : Option Position
  vehicle : Option VehicleDescriptor
deriving DecidableEq, Repr

/-- `StopTimeEvent`: `time` is a protobuf int64 field, default `0`. -/
structure StopTimeEvent where
  time : Int
deriving DecidableEq, Repr

/-- Default instance of `StopTimeEvent`. -/
def StopTimeEvent.dflt : StopTimeEvent := { time := 0 }

/-- `StopTimeUpdate`: `stop_id` string field plus the optional `arrival` and
`departure` sub-messages. -/
structure StopTimeUpdate where
  stop_id : String
  arrival : Option StopTimeEvent
  departure : Option StopTimeEvent
deriving DecidableEq, Repr

/-- `TripUpdate` as read by `api_trip_updates`. -/
structure TripUpdate where
  trip : Option TripDescriptor
  stop_time_update : List StopTimeUpdate
deriving DecidableEq, Repr

/-- One entry of a `TranslatedString`: only `text` is read by the code. -/
structure Translated where
  text : String
deriving DecidableEq, Repr

/-- `TranslatedString`: the repeated `translation` field. -/
structure TranslatedString where
  ts : List Translated
deriving DecidableEq, Repr

/-- Default instance of `TranslatedString` (empty repeated field). -/
def TranslatedString.dflt : TranslatedString := { ts := [] }

/-- `Alert` as read by `api_alerts`: the two translated strings plus the
`cause` and `effect` enum codes (kept as raw integers, as the code does). -/
structure Alert where
  header_text : Option TranslatedString
  description_text : Option TranslatedString
  cause : Nat
  effect : Nat
deriving DecidableEq, Repr

/-- `FeedEntity`: `id` plus at most one payload of each kind; `HasField`
checks presence of the corresponding sub-message. -/
structure FeedEntity where
  id : String
  vehicle : Option VehiclePosition
  trip_update : Option TripUpdate
  alert : Option Alert
deriving DecidableEq, Repr

/-- `FeedMessage`: the repeated `entity` field, in wire order. -/
structure FeedMessage where
  entity : List FeedEntity
deriving DecidableEq, Repr

/-! ## The enrichment join (shared by `api_vehicles` and `api_trip_updates`) -/

/-- Lines 57–63 and 85–91 of `app.py` (the identical join snippet):

    route_id = TRIP_LOOKUP.get(trip_id, {}).get("route_id", "")
    route_name = ""
    if route_id in ROUTE_LOOKUP:
        r = ROUTE_LOOKUP[route_id]
        route_name = r.get("route_short_name") or r.get("route_long_name") or ""
-/
def routeNameOfTrip (cat : Catalog) (trip_id : String) : CellVal :=
  let route_id := rowGetStr ((cat.trip_lookup trip_id).getD emptyRow) "route_id"
  match lookupRouteBy cat route_id with
  | some r => orChainEmpty (r "route_short_name") (r "route_long_name")
  | none => .str ""

/-- Line 95: `STOP_LOOKUP.get(stu.stop_id, {}).get("stop_name", "")`. -/
def stopNameOf (cat : Catalog) (stop_id : String) : CellVal :=
  rowGetStr ((cat.stop_lookup stop_id).getD emptyRow) "stop_name"

/-! ## Endpoint output records (the JSON objects built by the endpoints) -/

/-- One element of the `/api/vehicles` JSON array.  `route_name` is a
`CellVal` because the Python value can be a pandas NaN (see `orChainEmpty`). -/
structure VehicleOut where
  id : String
  lat : ℚ
  lon : ℚ
  route_name : CellVal
  trip_id : String
  vehicle_label : String
deriving DecidableEq, Repr

/-- One element of a `stop_updates` array.  `arrival` / `departure` model the
Python value `getattr(stu.arrival, "time", None)`: `none` stands for Python
`None`, `some t` for the number `t`. -/
structure StopUpdateOut where
  stop_id : String
  stop_name : CellVal
  arrival : Option Int
  departure : Option Int
deriving DecidableEq, Repr

/-- One element of the `/api/trip_updates` JSON array. -/
structure TripUpdateOut where
  id : String
  trip_id : String
  route_name : CellVal
  stop_updates : List StopUpdateOut
deriving DecidableEq, Repr

/-- One element of the `/api/alerts` JSON array. -/
structure AlertOut where
  id : String
  header : String
  descr : String
  cause : Nat
  effect : Nat
deriving DecidableEq, Repr

/-- Python `getattr(msg, "time", None)` applied to `stu.arrival` or
`stu.departure`: the protobuf API returns the default `StopTimeEvent`
instance when the sub-message is unset, and a `StopTimeEvent` object always
has a `time` attribute, so the `None` default of `getattr` can never fire —
the result is always a number (`0` when the event is unset). -/
def getattrTime (o : Option StopTimeEvent) : Option Int :=
  some (o.getD StopTimeEvent.dflt).time

/-- The record appended for a vehicle entity (lines 65–72 of `app.py`). -/
def vehicleRecord (cat : Catalog) (e : FeedEntity) (v : VehiclePosition) :
    VehicleOut :=
  { id := e.id
    lat := (v.pos.getD Position.dflt).latitude
    lon := (v.pos.getD Position.dflt).longitude
    route_name := routeNameOfTrip cat (v.trip.getD TripDescriptor.dflt).trip_id
    trip_id := (v.trip.getD TripDescriptor.dflt).trip_id
    vehicle_label := (v.vehicle.getD VehicleDescriptor.dflt).label }

/-- The record appended for one stop-time update (lines 96–101). -/
def stopUpdateRecord (cat : Catalog) (stu : StopTimeUpdate) : StopUpdateOut :=
  { stop_id := stu.stop_id
    stop_name := stopNameOf cat stu.stop_id
    arrival := getattrTime stu.arrival
    departure := getattrTime stu.departure }

/-- The record appended for a trip-update entity (lines 93–108): the inner
`for stu in tu.stop_time_update` loop is the fold, mirroring the repeated
`stops.append(...)`. -/
def tripUpdateRecord (cat : Catalog) (e : FeedEntity) (tu : TripUpdate) :
    TripUpdateOut :=
  { id := e.id
    trip_id := (tu.trip.getD TripDescriptor.dflt).trip_id
    route_name := routeNameOfTrip cat (tu.trip.getD TripDescriptor.dflt).trip_id
    stop_updates :=
      tu.stop_time_update.foldl (fun stops stu => stops ++ [stopUpdateRecord cat stu]) [] }

/-- The record appended for an alert entity (lines 121–127), including the
`... if a.header_text.translation else ""` conditionals. -/
def alertRecord (e : FeedEntity) (a : Alert) : AlertOut :=
  { id := e.id
    header :=
      match (a.header_text.getD TranslatedString.dflt).ts with
      | [] => ""
      | t :: _ => t.text
    descr :=
      match (a.description_text.getD TranslatedString.dflt).ts with
      | [] => ""
      | t :: _ => t.text
    cause := a.cause
    effect := a.effect }

/-! ## The three endpoint bodies (enrichment over one decoded feed)

Each mirrors the Python `for e in feed.entity: if e.HasField(...): xs.append(...)`
loop as a left fold over the entity list. -/

/-- Body of `api_vehicles` after the fetch (lines 52–74). -/
def api_vehicles (cat : Catalog) (feed : FeedMessage) : List VehicleOut :=
  feed.entity.foldl
    (fun vehicles e =>
      match e.vehicle with
      | some v => vehicles ++ [vehicleRecord cat e v]
      | none => vehicles) []

/-- Body of `api_trip_updates` after the fetch (lines 80–110). -/
def api_trip_updates (cat : Catalog) (feed : FeedMessage) : List TripUpdateOut :=
  feed.entity.foldl
    (fun trips e =>
      match e.trip_update with
      | some tu => trips ++ [tripUpdateRecord cat e tu]
      | none => trips) []

/-- Body of `api_alerts` after the fetch (lines 116–129); the alerts endpoint
performs no catalog lookup. -/
def api_alerts (feed : FeedMessage) : List AlertOut :=
  feed.entity.foldl
    (fun alerts e =>
      match e.alert with
      | some a => alerts ++ [alertRecord e a]
      | none => alerts) []

/-! ## The upstream fetch and the full request handlers -/

/-- The failure modes of `fetch_gtfs_rt`: a `requests` network exception, the
`HTTPError` raised by `resp.raise_for_status()`, or a protobuf
`DecodeError` from `ParseFromString`.  Any of these propagates out of the
endpoint and Flask turns the uncaught exception into a 500 server error. -/
inductive FetchError where
  | network
  | httpStatus (code : Nat)
  | decodeFailure
deriving DecidableEq, Repr

/-- What the upstream HTTP round-trip produced: no response at all (network
failure), or a response with its final status code and the result of
protobuf-decoding its body (`none` when `ParseFromString` would raise).
The body bytes themselves are abstracted by their decode result. -/
inductive UpstreamResult where
  | noResponse
  | response (status : Nat) (decoded : Option FeedMessage)
deriving DecidableEq, Repr

/-- `resp.raise_for_status()`: raises `HTTPError` exactly for status codes in
[400, 600) (4xx client errors and 5xx server errors); informational (1xx)
and redirection (3xx) final statuses do not raise. -/
def raise_for_status (code : Nat) : Except FetchError Unit :=
  if 400 ≤ code ∧ code < 600 then .error (.httpStatus code) else .ok ()

/-- `fetch_gtfs_rt` (lines 37–42): one GET, `raise_for_status`, then
`ParseFromString` on the body. -/
def fetch_gtfs_rt (u : UpstreamResult) : Except FetchError FeedMessage :=
  match u with
  | .noResponse => .error .network
  | .response status decoded =>
    match raise_for_status status with
    | .error err => .error err
    | .ok _ =>
      match decoded with
      | none => .error .decodeFailure
      | some feed => .ok feed

/-- The full `/api/vehicles` handler: an exception from the fetch propagates
(Flask answers 500 with no JSON body), otherwise the enriched array is
returned. -/
def vehiclesHandler (cat : Catalog) (u : UpstreamResult) :
    Except FetchError (List VehicleOut) :=
  match fetch_gtfs_rt u with
  | .error err => .error err
  | .ok feed => .ok (api_vehicles cat feed)

/-- The full `/api/trip_updates` handler. -/
def tripUpdatesHandler (cat : Catalog) (u : UpstreamResult) :
    Except FetchError (List TripUpdateOut) :=
  match fetch_gtfs_rt u with
  | .error err => .error err
  | .ok feed => .ok (api_trip_updates cat feed)

/-- The full `/api/alerts` handler. -/
def alertsHandler (u : UpstreamResult) :
    Except FetchError (List AlertOut) :=
  match fetch_gtfs_rt u with
  | .error err => .error err
  | .ok feed => .ok (api_alerts feed)

/-- `True` when the handler raised, i.e. the HTTP response is a 5xx server
error, not a JSON array. -/
def isServerError {α : Type} : Except FetchError α → Bool
  | .error _ => true
  | .ok _ => false

/-! ## Loading the static catalog (`load_static_gtfs`, lines 20–28)

`pd.read_csv` either raises (file missing or malformed CSV) or yields a
DataFrame, modelled as a `Table`; `DataFrame.set_index(key)` raises
`KeyError` when the key column does not exist; `to_dict(orient="index")`
turns the frame into a dict keyed by the index values, later rows
overwriting earlier ones on duplicate keys, with the index column removed
from each row dict. -/

/-- A parsed CSV file: its header columns and its rows (each row a dict of
cell values, as `to_dict` will later expose them). -/
structure Table where
  columns : List String
  rows : List Row

/-- A failure of `load_static_gtfs`: `pd.read_csv` raised on one of the three
files, `set_index` raised `KeyError` for a missing key column, or
`to_dict(orient="index")` raised `ValueError` because the index built from
the key column is not unique.  Any of these exceptions escapes
`load_static_gtfs` at import time, so the process never starts serving. -/
inductive LoadError where
  | readFailure (file : String)
  | keyColumnMissing (file : String) (key : String)
  | duplicateIndex (file : String)
deriving DecidableEq, Repr

/-- `pd.read_csv(path)`: `none` models the call raising (missing file or
malformed contents); otherwise the parsed table is returned. -/
def read_csv (file : String) (content : Option Table) : Except LoadError Table :=
  match content with
  | none => .error (.readFailure file)
  | some t => .ok t

/-- The row dict after the index column is removed by `to_dict(orient="index")`. -/
def dropKey (r : Row) (key : String) : Row :=
  fun q => if q = key then none else r q

/-- The dict built by `to_dict(orient="index")` from a frame indexed by the
key column: a map from the string key values to the remaining row dicts.
`set_index_to_dict` only calls this after the duplicate-index check, so the
key values are pairwise distinct by then.  A NaN entry of the key column
becomes a NaN index key, which no string lookup can ever reach (NaN compares
unequal to everything), so such rows are dropped from the model of the
dict. -/
def buildLookup (t : Table) (key : String) : String → Option Row :=
  t.rows.foldl
    (fun m r =>
      match r key with
      | some (.str s) => fun q => if q = s then some (dropKey r key) else m q
      | _ => m)
    (fun _ => none)

/-- The key value of a row as it enters the index: a missing cell of a
present column is the pandas NaN. -/
def indexKey (r : Row) (key : String) : CellVal :=
  (r key).getD .nan

/-- Whether a list of index entries contains a duplicate.  NaN entries count
as duplicates of each other, as in `pandas.Index.is_unique` (the uniqueness
hashtable normalizes NaN). -/
def dupKeys : List CellVal → Bool
  | [] => false
  | k :: ks => ks.any (fun q => q = k) || dupKeys ks

/-- `df.set_index(key).to_dict(orient="index")` including its two error
paths, in evaluation order: `set_index` raises `KeyError` when the key
column is absent, and `to_dict(orient="index")` raises
`ValueError: DataFrame index must be unique for orient='index'` when the
resulting index has duplicate entries. -/
def set_index_to_dict (t : Table) (file key : String) :
    Except LoadError (String → Option Row) :=
  if key ∈ t.columns then
    if dupKeys (t.rows.map (fun r => indexKey r key)) then
      .error (.duplicateIndex file)
    else .ok (buildLookup t key)
  else .error (.keyColumnMissing file key)

/-- `load_static_gtfs` (lines 20–28): the three `read_csv` calls in source
order, then the three `set_index(...).to_dict(...)` calls in source order;
the first exception aborts the whole load, and a catalog is returned only
when all six steps succeed. -/
def load_static_gtfs (routesF stopsF tripsF : Option Table) :
    Except LoadError Catalog :=
  match read_csv "routes.txt" routesF with
  | .error err => .error err
  | .ok routes =>
    match read_csv "stops.txt" stopsF with
    | .error err => .error err
    | .ok stops =>
      match read_csv "trips.txt" tripsF with
      | .error err => .error err
      | .ok trips =>
        match set_index_to_dict routes "routes.txt" "route_id" with
        | .error err => .error err
        | .ok route_lookup =>
          match set_index_to_dict stops "stops.txt" "stop_id" with
          | .error err => .error err
          | .ok stop_lookup =>
            match set_index_to_dict trips "trips.txt" "trip_id" with
            | .error err => .error err
            | .ok trip_lookup =>
              .ok { route_lookup := route_lookup
                    stop_lookup := stop_lookup
                    trip_lookup := trip_lookup }

/-! ## Concrete instances used by the closed theorems below -/

/-- A catalog whose three lookup dicts are empty. -/
def catEmpty : Catalog :=
  { route_lookup := fun _ => none
    stop_lookup := fun _ => none
    trip_lookup := fun _ => none }

/-- A decoded feed with no entities. -/
def emptyFeed : FeedMessage := { entity := [] }

/-- An entity carrying none of the three recognized payloads. -/
def blankEntity : FeedEntity :=
  { id := "x", vehicle := none, trip_update := none, alert := none }

/-- Catalog for the end-to-end vehicle scenario: route `R1` with
`route_short_name` `"10A"` (and no long name), trip `T1` on route `R1`. -/
def catR1 : Catalog :=
  { route_lookup := fun rid =>
      if rid = "R1" then
        some (fun k => if k = "route_short_name" then some (.str "10A") else none)
      else none
    stop_lookup := fun _ => none
    trip_lookup := fun tid =>
      if tid = "T1" then
        some (fun k => if k = "route_id" then some (.str "R1") else none)
      else none }

/-- Feed for the end-to-end vehicle scenario: one vehicle entity `v1` on trip
`T1` at (38.9, -76.8) with label `"Bus 10A"`. -/
def feedV1 : FeedMessage :=
  { entity := [
      { id := "v1"
        vehicle := some
          { trip := some { trip_id := "T1" }
            pos := some { latitude := 38.9, longitude := -76.8 }
            vehicle := some { label := "Bus 10A" } }
        trip_update := none
        alert := none }] }

/-- Route row whose `route_short_name` cell is empty in `routes.txt` (pandas
stores NaN) while `route_long_name` holds a name: the record carries only a
long name. -/
def rowNanShort : Row := fun k =>
  if k = "route_short_name" then some .nan
  else if k = "route_long_name" then some (.str "Metro Express") else none

/-- Trip row pointing at route `R1`. -/
def rowTripR1 : Row := fun k =>
  if k = "route_id" then some (.str "R1") else none

/-- Catalog exhibiting the NaN short-name cell: route `R1` is `rowNanShort`,
trip `T1` runs on `R1`. -/
def catNan : Catalog :=
  { route_lookup := fun rid => if rid = "R1" then some rowNanShort else none
    stop_lookup := fun _ => none
    trip_lookup := fun tid => if tid = "T1" then some rowTripR1 else none }

/-- One vehicle entity on trip `T1` (used against `catNan`). -/
def feedT1Vehicle : FeedMessage :=
  { entity := [
      { id := "b1"
        vehicle := some { trip := some { trip_id := "T1" }, pos := none, vehicle := none }
        trip_update := none
        alert := none }] }

/-- A trip update whose single stop-time update has neither an arrival nor a
departure event set. -/
def tuNoTimes : TripUpdate :=
  { trip := none
    stop_time_update := [{ stop_id := "S1", arrival := none, departure := none }] }

/-- The entity wrapping `tuNoTimes`. -/
def entNoTimes : FeedEntity :=
  { id := "e1", vehicle := none, trip_update := some tuNoTimes, alert := none }

/-- The feed containing exactly `entNoTimes`. -/
def feedNoTimes : FeedMessage := { entity := [entNoTimes] }

/-- An alert with zero translation entries in both translated strings. -/
def alertNoTranslations : Alert :=
  { header_text := none, description_text := some { ts := [] }, cause := 1, effect := 2 }

/-- The entity wrapping `alertNoTranslations`. -/
def entAlertNoTranslations : FeedEntity :=
  { id := "a1", vehicle := none, trip_update := none, alert := some alertNoTranslations }

/-- A catalog used by the precedence witness: route `R9` has only a long
name (its `route_short_name` column is absent), trip `T9` runs on `R9`. -/
def catLongOnly : Catalog :=
  { route_lookup := fun rid =>
      if rid = "R9" then
        some (fun k => if k = "route_long_name" then some (.str "Blue Line") else none)
      else none
    stop_lookup := fun _ => none
    trip_lookup := fun tid =>
      if tid = "T9" then
        some (fun k => if k = "route_id" then some (.str "R9") else none)
      else none }

/-- The row stored for `R9` in `catLongOnly`, named for use in hypotheses. -/
def rowLongOnly : Row := fun k =>
  if k = "route_long_name" then some (.str "Blue Line") else none

/-- The trip row stored for `T9` in `catLongOnly`. -/
def rowTripR9 : Row := fun k =>
  if k = "route_id" then some (.str "R9") else none

/-- A one-column, one-row table whose key column exists, for the load
witness. -/
def tableWith (key : String) : Table :=
  { columns := [key], rows := [fun k => if k = key then some (.str "k1") else none] }

/-- The catalog that loading the three `tableWith` files produces. -/
def catLoaded : Catalog :=
  { route_lookup := buildLookup (tableWith "route_id") "route_id"
    stop_lookup := buildLookup (tableWith "stop_id") "stop_id"
    trip_lookup := buildLookup (tableWith "trip_id") "trip_id" }

/-- A routes table whose `route_id` column exists but holds the same key
twice: `set_index` succeeds on it, and `to_dict(orient="index")` raises its
duplicate-index `ValueError`. -/
def tableDupRoutes : Table :=
  { columns := ["route_id"]
    rows := [fun k => if k = "route_id" then some (.str "k1") else none,
             fun k => if k = "route_id" then some (.str "k1") else none] }

/-! ## Bridge lemmas: the append-accumulating loops as `filterMap` / `map` -/

/-- The vehicles loop with an arbitrary accumulator. -/
theorem api_vehicles_foldl_eq (cat : Catalog) (es : List FeedEntity)
    (acc : List VehicleOut) :
    es.foldl
      (fun vehicles e =>
        match e.vehicle with
        | some v => vehicles ++ [vehicleRecord cat e v]
        | none => vehicles) acc
    = acc ++ es.filterMap (fun e => e.vehicle.map (vehicleRecord cat e)) := by
  induction es generalizing acc with
  | nil => simp
  | cons e es ih => cases h : e.vehicle <;> simp [h, ih, List.filterMap_cons]

/-- `api_vehicles` is the in-order `filterMap` of the vehicle entities. -/
theorem api_vehicles_eq_filterMap (cat : Catalog) (feed : FeedMessage) :
    api_vehicles cat feed
      = feed.entity.filterMap (fun e => e.vehicle.map (vehicleRecord cat e)) := by
  rw [api_vehicles, api_vehicles_foldl_eq]
  simp

/-- The trip-updates loop with an arbitrary accumulator. -/
theorem api_trip_updates_foldl_eq (cat : Catalog) (es : List FeedEntity)
    (acc : List TripUpdateOut) :
    es.foldl
      (fun trips e =>
        match e.trip_update with
        | some tu => trips ++ [tripUpdateRecord cat e tu]
        | none => trips) acc
    = acc ++ es.filterMap (fun e => e.trip_update.map (tripUpdateRecord cat e)) := by
  induction es generalizing acc with
  | nil => simp
  | cons e es ih => cases h : e.trip_update <;> simp [h, ih, List.filterMap_cons]

/-- `api_trip_updates` is the in-order `filterMap` of the trip-update
entities. -/
theorem api_trip_updates_eq_filterMap (cat : Catalog) (feed : FeedMessage) :
    api_trip_updates cat feed
      = feed.entity.filterMap (fun e => e.trip_update.map (tripUpdateRecord cat e)) := by
  rw [api_trip_updates, api_trip_updates_foldl_eq]
  simp

/-- The alerts loop with an arbitrary accumulator. -/
theorem api_alerts_foldl_eq (es : List FeedEntity) (acc : List AlertOut) :
    es.foldl
      (fun alerts e =>
        match e.alert with
        | some a => alerts ++ [alertRecord e a]
        | none => alerts) acc
    = acc ++ es.filterMap (fun e => e.alert.map (alertRecord e)) := by
  induction es generalizing acc with
  | nil => simp
  | cons e es ih => cases h : e.alert <;> simp [h, ih, List.filterMap_cons]

/-- `api_alerts` is the in-order `filterMap` of the alert entities. -/
theorem api_alerts_eq_filterMap (feed : FeedMessage) :
    api_alerts feed
      = feed.entity.filterMap (fun e => e.alert.map (alertRecord e)) := by
  rw [api_alerts, api_alerts_foldl_eq]
  simp

/-- The inner stop-time-update loop is the in-order `map`. -/
theorem stop_updates_eq_map (cat : Catalog) (e : FeedEntity) (tu : TripUpdate) :
    (tripUpdateRecord cat e tu).stop_updates
      = tu.stop_time_update.map (stopUpdateRecord cat) := by
  show tu.stop_time_update.foldl
      (fun stops stu => stops ++ [stopUpdateRecord cat stu]) []
    = tu.stop_time_update.map (stopUpdateRecord cat)
  have aux : ∀ (stus : List StopTimeUpdate) (acc : List StopUpdateOut),
      stus.foldl (fun stops stu => stops ++ [stopUpdateRecord cat stu]) acc
        = acc ++ stus.map (stopUpdateRecord cat) := by
    intro stus
    induction stus with
    | nil => simp
    | cons stu stus ih => intro acc; simp [ih]
  simpa using aux tu.stop_time_update []

/-- Counting a `filterMap` by the entities whose extractor is set. -/
theorem length_filterMap_eq_length_filter {α β : Type} (f : α → Option β)
    (es : List α) :
    (es.filterMap f).length = (es.filter (fun e => (f e).isSome)).length := by
  induction es with
  | nil => rfl
  | cons e es ih =>
    cases h : f e <;> simp [List.filterMap_cons, List.filter_cons, h, ih]

/-! ## Claim theorems -/

/-- C1 (counterexample).  The claimed precedence fails on the code: for route
`R1`, whose record has only a long name — its `route_short_name` cell is the
pandas missing-value NaN (an empty cell of a present column) and its
`route_long_name` is `"Metro Express"` — the derived route name reached via
the trip join is NaN, not the long name, because Python's `or` treats the
float NaN as truthy and `r.get("route_short_name") or r.get("route_long_name") or ""`
therefore returns the NaN itself.  The same NaN flows into the `/api/vehicles`
record. -/
theorem routeName_precedence_cex :
    rowNanShort "route_short_name" = some CellVal.nan
    ∧ rowNanShort "route_long_name" = some (CellVal.str "Metro Express")
    ∧ catNan.route_lookup "R1" = some rowNanShort
    ∧ catNan.trip_lookup "T1" = some rowTripR1
    ∧ rowTripR1 "route_id" = some (CellVal.str "R1")
    ∧ routeNameOfTrip catNan "T1" = CellVal.nan
    ∧ ¬ routeNameOfTrip catNan "T1" = CellVal.str "Metro Express"
    ∧ (api_vehicles catNan feedT1Vehicle).map VehicleOut.route_name
        = [CellVal.nan] := by
  refine ⟨rfl, rfl, rfl, rfl, rfl, ?_, ?_, ?_⟩ <;>
    simp [routeNameOfTrip, catNan, rowTripR1, rowNanShort, rowGetStr,
      lookupRouteBy, orChainEmpty, pyOr, pyTruthy, api_vehicles, feedT1Vehicle,
      vehicleRecord, TripDescriptor.dflt]

/-- C1 (amended).  Display-name precedence for a route reached via the trip
join, stated over the Python values a loaded catalog can hold: if the
`route_short_name` entry is a non-empty string, the derived route name is the
short name (whatever the long name is, so in particular when both names are
present); if the short-name entry is absent from the row dict or is the empty
string, and `route_long_name` is a non-empty string, the derived name is
the long name; but if the short-name cell is the pandas NaN of an empty CSV
cell, the derived name is that NaN, not the long name. -/
theorem routeName_precedence_amended (cat : Catalog) (tid rid : String)
    (tr r : Row)
    (htr : cat.trip_lookup tid = some tr)
    (hrid : tr "route_id" = some (.str rid))
    (hr : cat.route_lookup rid = some r) :
    (∀ sn, r "route_short_name" = some (.str sn) → sn ≠ "" →
      routeNameOfTrip cat tid = .str sn)
    ∧ ((r "route_short_name" = none ∨ r "route_short_name" = some (.str "")) →
      ∀ ln, r "route_long_name" = some (.str ln) → ln ≠ "" →
        routeNameOfTrip cat tid = .str ln)
    ∧ (r "route_short_name" = some .nan →
      routeNameOfTrip cat tid = .nan) := by
  have hbase : routeNameOfTrip cat tid
      = orChainEmpty (r "route_short_name") (r "route_long_name") := by
    simp [routeNameOfTrip, htr, rowGetStr, hrid, lookupRouteBy, hr]
  refine ⟨?_, ?_, ?_⟩
  · intro sn hsn hne
    rw [hbase, hsn]
    simp [orChainEmpty, pyOr, pyTruthy, hne]
  · rintro (hs | hs) ln hln hne <;> rw [hbase, hs, hln] <;>
      simp [orChainEmpty, pyOr, pyTruthy, hne]
  · intro hs
    rw [hbase, hs]
    simp [orChainEmpty, pyOr, pyTruthy]

/-- C1 (witness).  A concrete catalog exercising the amended precedence: trip
`T9` runs on route `R9`, whose row has no `route_short_name` key and long
name `"Blue Line"`; the derived route name is `"Blue Line"`. -/
theorem routeName_precedence_amended_witness :
    routeNameOfTrip catLongOnly "T9" = CellVal.str "Blue Line" :=
  (routeName_precedence_amended catLongOnly "T9" "R9" rowTripR9 rowLongOnly
    rfl rfl rfl).2.1 (Or.inl rfl) "Blue Line" rfl (by decide)

/-- C2.  End-to-end vehicle scenario: with route `R1` (short name `"10A"`),
trip `T1` on `R1`, and a feed holding exactly one vehicle entity `v1` on trip
`T1` at (38.9, -76.8) labelled `"Bus 10A"`, the `/api/vehicles` enrichment
returns exactly the one-element array
`[{id: "v1", lat: 38.9, lon: -76.8, route_name: "10A", trip_id: "T1",
vehicle_label: "Bus 10A"}]`. -/
theorem vehicles_end_to_end :
    api_vehicles catR1 feedV1 =
      [{ id := "v1", lat := 38.9, lon := -76.8, route_name := .str "10A",
         trip_id := "T1", vehicle_label := "Bus 10A" }] := by
  simp [api_vehicles, catR1, feedV1, vehicleRecord, routeNameOfTrip, rowGetStr,
    lookupRouteBy, orChainEmpty, pyOr, pyTruthy, emptyRow, TripDescriptor.dflt,
    Position.dflt, VehicleDescriptor.dflt]

/-- C3 (code bug).  A stop-time update with neither an arrival nor a
departure event set serializes with `arrival = 0` and `departure = 0`
(`some 0`), never with the absent/None value: `getattr(stu.arrival, "time",
None)` always finds a `time` attribute because the protobuf API returns the
default `StopTimeEvent` instance for an unset sub-message, so the `None`
default — the author's visible intent, matching the spec's optional
arrival/departure — can never fire. -/
theorem stop_time_absent_yields_zero :
    api_trip_updates catEmpty feedNoTimes =
      [{ id := "e1", trip_id := "", route_name := .str "",
         stop_updates := [{ stop_id := "S1", stop_name := .str "",
                            arrival := some 0, departure := some 0 }] }]
    ∧ ∀ rec ∈ api_trip_updates catEmpty feedNoTimes,
        ∀ su ∈ rec.stop_updates, ¬ su.arrival = none ∧ ¬ su.departure = none := by
  constructor
  · simp [api_trip_updates, catEmpty, feedNoTimes, entNoTimes, tuNoTimes,
      tripUpdateRecord, stopUpdateRecord, routeNameOfTrip, stopNameOf,
      rowGetStr, emptyRow, lookupRouteBy, orChainEmpty, pyOr, pyTruthy,
      getattrTime, TripDescriptor.dflt, StopTimeEvent.dflt]
  · intro rec hrec su hsu
    have : ∀ o : Option StopTimeEvent, ¬ getattrTime o = none := by
      intro o
      simp [getattrTime]
    revert hrec
    simp [api_trip_updates, catEmpty, feedNoTimes, entNoTimes, tuNoTimes,
      tripUpdateRecord]
    intro hrec
    subst hrec
    revert hsu
    simp [stopUpdateRecord, getattrTime]
    intro hsu
    subst hsu
    simp

/-- C4.  For a `trip_id` absent from the trip table, the enriched route name
is the empty string for both the vehicle and the trip-update join, and the
join is a total function (no exception path exists).  The second hypothesis
records that the route table has no entry under the empty-string key, which
is automatic for a catalog built by `load_static_gtfs`: `pd.read_csv` parses
an empty `route_id` cell as NaN, never as the string `""`, so `""` cannot be
an index key. -/
theorem missing_trip_empty_route_name (cat : Catalog) (tid : String)
    (htrip : cat.trip_lookup tid = none)
    (hkey : cat.route_lookup "" = none) :
    routeNameOfTrip cat tid = CellVal.str ""
    ∧ (∀ e v, e.vehicle = some v →
        (v.trip.getD TripDescriptor.dflt).trip_id = tid →
        (vehicleRecord cat e v).route_name = CellVal.str "")
    ∧ (∀ e tu, e.trip_update = some tu →
        (tu.trip.getD TripDescriptor.dflt).trip_id = tid →
        (tripUpdateRecord cat e tu).route_name = CellVal.str "") := by
  have hbase : routeNameOfTrip cat tid = CellVal.str "" := by
    simp [routeNameOfTrip, htrip, rowGetStr, emptyRow, lookupRouteBy, hkey]
  refine ⟨hbase, ?_, ?_⟩
  · intro e v _ hv
    simp [vehicleRecord, hv, hbase]
  · intro e tu _ htu
    simp [tripUpdateRecord, htu, hbase]

/-- C4 (witness).  Against the empty catalog, the unknown trip `"ghost"`
yields the empty-string route name. -/
theorem missing_trip_empty_route_name_witness :
    routeNameOfTrip catEmpty "ghost" = CellVal.str "" :=
  (missing_trip_empty_route_name catEmpty "ghost" rfl rfl).1

/-- C5 (counterexample).  A non-2xx status is not always turned into a server
error: a final HTTP 304 response (non-2xx, and not raised by
`raise_for_status`, which only raises for 4xx/5xx) whose empty body decodes
as an empty `FeedMessage` makes all three endpoints answer 200 with the
empty JSON array instead of a 5xx. -/
theorem non2xx_not_always_server_error :
    vehiclesHandler catEmpty (.response 304 (some emptyFeed)) = .ok []
    ∧ tripUpdatesHandler catEmpty (.response 304 (some emptyFeed)) = .ok []
    ∧ alertsHandler (.response 304 (some emptyFeed)) = .ok []
    ∧ ¬ (200 ≤ 304 ∧ 304 < 300) := by
  refine ⟨?_, ?_, ?_, by decide⟩ <;>
    simp [vehiclesHandler, tripUpdatesHandler, alertsHandler, fetch_gtfs_rt,
      raise_for_status, api_vehicles, api_trip_updates, api_alerts, emptyFeed,
      catEmpty]

/-- C5 (amended).  If the upstream fetch fails on the network, or responds
with an HTTP status in [400, 600) — the statuses `raise_for_status` raises
for — or its body fails to protobuf-decode, then each of the three API
operations propagates the exception and answers with a server error, never a
JSON array (and in particular never a partial or cached payload: no cache
exists, the handler holds no state).  Final 1xx/3xx statuses, which are also
non-2xx, are not raised by `raise_for_status` and are excluded from the
amended statement. -/
theorem fetch_failure_propagates (cat : Catalog) (u : UpstreamResult)
    (h : u = .noResponse
      ∨ ∃ s d, u = .response s d ∧ ((400 ≤ s ∧ s < 600) ∨ d = none)) :
    isServerError (vehiclesHandler cat u) = true
    ∧ isServerError (tripUpdatesHandler cat u) = true
    ∧ isServerError (alertsHandler u) = true := by
  have hf : ∃ err, fetch_gtfs_rt u = .error err := by
    rcases h with rfl | ⟨s, d, rfl, hsd⟩
    · exact ⟨.network, rfl⟩
    · rcases hsd with hs | rfl
      · exact ⟨.httpStatus s, by simp [fetch_gtfs_rt, raise_for_status, hs]⟩
      · by_cases hr : 400 ≤ s ∧ s < 600
        · exact ⟨.httpStatus s, by simp [fetch_gtfs_rt, raise_for_status, hr]⟩
        · exact ⟨.decodeFailure, by simp [fetch_gtfs_rt, raise_for_status, hr]⟩
  rcases hf with ⟨err, hferr⟩
  simp [vehiclesHandler, tripUpdatesHandler, alertsHandler, hferr,
    isServerError]

/-- C5 (witness).  An upstream HTTP 503 makes all three endpoints answer with
a server error. -/
theorem fetch_failure_propagates_witness :
    isServerError (vehiclesHandler catEmpty (.response 503 none)) = true
    ∧ isServerError (tripUpdatesHandler catEmpty (.response 503 none)) = true
    ∧ isServerError (alertsHandler (.response 503 none)) = true :=
  fetch_failure_propagates catEmpty (.response 503 none)
    (Or.inr ⟨503, none, rfl, Or.inl (by decide)⟩)

/-- C6.  The enrichment is total and filters only by entity type: the
vehicles, trip-updates and alerts outputs have exactly one record per
entity carrying the corresponding payload (however incomplete the payload,
since every field access is total), and an entity carrying none of the three
payloads contributes to none of the three outputs, wherever it sits in the
feed. -/
theorem enricher_total_and_type_filtering (cat : Catalog) (feed : FeedMessage)
    (es₁ es₂ : List FeedEntity) (e : FeedEntity)
    (hv : e.vehicle = none) (ht : e.trip_update = none) (ha : e.alert = none) :
    (api_vehicles cat feed).length
        = (feed.entity.filter (fun x => x.vehicle.isSome)).length
    ∧ (api_trip_updates cat feed).length
        = (feed.entity.filter (fun x => x.trip_update.isSome)).length
    ∧ (api_alerts feed).length
        = (feed.entity.filter (fun x => x.alert.isSome)).length
    ∧ api_vehicles cat { entity := es₁ ++ e :: es₂ }
        = api_vehicles cat { entity := es₁ ++ es₂ }
    ∧ api_trip_updates cat { entity := es₁ ++ e :: es₂ }
        = api_trip_updates cat { entity := es₁ ++ es₂ }
    ∧ api_alerts { entity := es₁ ++ e :: es₂ }
        = api_alerts { entity := es₁ ++ es₂ } := by
  refine ⟨?_, ?_, ?_, ?_, ?_, ?_⟩
  · rw [api_vehicles_eq_filterMap, length_filterMap_eq_length_filter]
    have hfun : (fun x : FeedEntity =>
        (Option.map (vehicleRecord cat x) x.vehicle).isSome)
        = fun x : FeedEntity => x.vehicle.isSome := by
      funext x
      cases x.vehicle <;> rfl
    rw [hfun]
  · rw [api_trip_updates_eq_filterMap, length_filterMap_eq_length_filter]
    have hfun : (fun x : FeedEntity =>
        (Option.map (tripUpdateRecord cat x) x.trip_update).isSome)
        = fun x : FeedEntity => x.trip_update.isSome := by
      funext x
      cases x.trip_update <;> rfl
    rw [hfun]
  · rw [api_alerts_eq_filterMap, length_filterMap_eq_length_filter]
    have hfun : (fun x : FeedEntity =>
        (Option.map (alertRecord x) x.alert).isSome)
        = fun x : FeedEntity => x.alert.isSome := by
      funext x
      cases x.alert <;> rfl
    rw [hfun]
  · rw [api_vehicles_eq_filterMap, api_vehicles_eq_filterMap]
    simp [List.filterMap_append, List.filterMap_cons, hv]
  · rw [api_trip_updates_eq_filterMap, api_trip_updates_eq_filterMap]
    simp [List.filterMap_append, List.filterMap_cons, ht]
  · rw [api_alerts_eq_filterMap, api_alerts_eq_filterMap]
    simp [List.filterMap_append, List.filterMap_cons, ha]

/-- C6 (witness).  Concrete instance: the end-to-end feed has as many vehicle
records as vehicle entities, and inserting a payload-free entity changes
neither the vehicles nor the alerts output. -/
theorem enricher_total_and_type_filtering_witness :
    (api_vehicles catR1 feedV1).length
        = (feedV1.entity.filter (fun x => x.vehicle.isSome)).length
    ∧ api_vehicles catR1 { entity := [] ++ blankEntity :: [] }
        = api_vehicles catR1 { entity := [] ++ [] }
    ∧ api_alerts { entity := [] ++ blankEntity :: [] }
        = api_alerts { entity := [] ++ [] } :=
  ⟨(enricher_total_and_type_filtering catR1 feedV1 [] [] blankEntity
      rfl rfl rfl).1,
   (enricher_total_and_type_filtering catR1 feedV1 [] [] blankEntity
      rfl rfl rfl).2.2.2.1,
   (enricher_total_and_type_filtering catR1 feedV1 [] [] blankEntity
      rfl rfl rfl).2.2.2.2.2⟩

/-- C7.  An alert entity is always serialized and included wherever it sits
in the feed; its header (resp. description) is the empty string when the
translated string has zero translation entries, and the text of the first
translation entry when any are present. -/
theorem alert_first_translation_or_empty (es₁ es₂ : List FeedEntity)
    (e : FeedEntity) (a : Alert) (he : e.alert = some a) :
    api_alerts { entity := es₁ ++ e :: es₂ }
      = api_alerts { entity := es₁ }
        ++ alertRecord e a :: api_alerts { entity := es₂ }
    ∧ ((a.header_text.getD TranslatedString.dflt).ts = [] →
        (alertRecord e a).header = "")
    ∧ ((a.description_text.getD TranslatedString.dflt).ts = [] →
        (alertRecord e a).descr = "")
    ∧ (∀ t rest, (a.header_text.getD TranslatedString.dflt).ts = t :: rest →
        (alertRecord e a).header = t.text)
    ∧ (∀ t rest,
        (a.description_text.getD TranslatedString.dflt).ts = t :: rest →
        (alertRecord e a).descr = t.text) := by
  refine ⟨?_, ?_, ?_, ?_, ?_⟩
  · simp [api_alerts_eq_filterMap, List.filterMap_append, List.filterMap_cons,
      he]
  · intro h
    simp [alertRecord, h]
  · intro h
    simp [alertRecord, h]
  · intro t rest h
    simp [alertRecord, h]
  · intro t rest h
    simp [alertRecord, h]

/-- C7 (witness).  An alert with zero translations in both fields is still
included and serializes with empty header and description. -/
theorem alert_first_translation_or_empty_witness :
    api_alerts { entity := [] ++ entAlertNoTranslations :: [] }
      = api_alerts { entity := [] }
        ++ alertRecord entAlertNoTranslations alertNoTranslations
          :: api_alerts { entity := [] }
    ∧ (alertRecord entAlertNoTranslations alertNoTranslations).header = ""
    ∧ (alertRecord entAlertNoTranslations alertNoTranslations).descr = "" :=
  ⟨(alert_first_translation_or_empty [] [] entAlertNoTranslations
      alertNoTranslations rfl).1,
   (alert_first_translation_or_empty [] [] entAlertNoTranslations
      alertNoTranslations rfl).2.1 rfl,
   (alert_first_translation_or_empty [] [] entAlertNoTranslations
      alertNoTranslations rfl).2.2.1 rfl⟩

/-- C8.  The enrichment is deterministic: its output is a function of the
decoded feed and the catalog snapshot alone, so two runs on the same feed
and the same snapshot produce identical output for all three entity kinds
(and hence byte-identical JSON, serialization being a function of the
records). -/
theorem enricher_deterministic (cat₁ cat₂ : Catalog)
    (feed₁ feed₂ : FeedMessage) (hc : cat₁ = cat₂) (hf : feed₁ = feed₂) :
    api_vehicles cat₁ feed₁ = api_vehicles cat₂ feed₂
    ∧ api_trip_updates cat₁ feed₁ = api_trip_updates cat₂ feed₂
    ∧ api_alerts feed₁ = api_alerts feed₂ := by
  subst hc
  subst hf
  exact ⟨rfl, rfl, rfl⟩

/-- C8 (witness).  Two runs on the end-to-end scenario inputs coincide. -/
theorem enricher_deterministic_witness :
    api_vehicles catR1 feedV1 = api_vehicles catR1 feedV1
    ∧ api_trip_updates catR1 feedV1 = api_trip_updates catR1 feedV1
    ∧ api_alerts feedV1 = api_alerts feedV1 :=
  enricher_deterministic catR1 catR1 feedV1 feedV1 rfl rfl

/-- C9.  Catalog loading is all-or-nothing: `load_static_gtfs` returns a
`LoadError` whenever any of the three files is missing or malformed
(`pd.read_csv` raises) or lacks its designated key column (`set_index`
raises `KeyError`); and every successful load implies all three files were
present with their key columns — since the only success value carries all
three lookup tables at once, no partial catalog is ever produced.  (A
further failure the claim does not enumerate also exists: a duplicated key
column makes `to_dict(orient="index")` raise `ValueError`, see
`load_duplicate_index_errors`; it too yields a `LoadError` and no catalog.) -/
theorem catalog_load_all_or_nothing (routesF stopsF tripsF : Option Table) :
    (∀ cat, load_static_gtfs routesF stopsF tripsF = .ok cat →
      ((∃ rt, routesF = some rt ∧ "route_id" ∈ rt.columns)
       ∧ (∃ st, stopsF = some st ∧ "stop_id" ∈ st.columns)
       ∧ (∃ tt, tripsF = some tt ∧ "trip_id" ∈ tt.columns)))
    ∧ (¬ ((∃ rt, routesF = some rt ∧ "route_id" ∈ rt.columns)
       ∧ (∃ st, stopsF = some st ∧ "stop_id" ∈ st.columns)
       ∧ (∃ tt, tripsF = some tt ∧ "trip_id" ∈ tt.columns)) →
      ∃ err, load_static_gtfs routesF stopsF tripsF = .error err) := by
  have hok : ∀ cat, load_static_gtfs routesF stopsF tripsF = .ok cat →
      ((∃ rt, routesF = some rt ∧ "route_id" ∈ rt.columns)
       ∧ (∃ st, stopsF = some st ∧ "stop_id" ∈ st.columns)
       ∧ (∃ tt, tripsF = some tt ∧ "trip_id" ∈ tt.columns)) := by
    intro cat hcat
    rcases routesF with _ | rt
    · simp [load_static_gtfs, read_csv] at hcat
    rcases stopsF with _ | st
    · simp [load_static_gtfs, read_csv] at hcat
    rcases tripsF with _ | tt
    · simp [load_static_gtfs, read_csv] at hcat
    simp only [load_static_gtfs, read_csv, set_index_to_dict] at hcat
    split_ifs at hcat
    exact ⟨⟨rt, rfl, by assumption⟩, ⟨st, rfl, by assumption⟩,
      ⟨tt, rfl, by assumption⟩⟩
  refine ⟨hok, ?_⟩
  intro hnot
  cases hload : load_static_gtfs routesF stopsF tripsF with
  | error err => exact ⟨err, rfl⟩
  | ok cat => exact absurd (hok cat hload) hnot

/-- C9 (witness).  With `routes.txt` unreadable the load fails with a
`LoadError`; and a concrete successful load implies all three files were
present with their key columns. -/
theorem catalog_load_all_or_nothing_witness :
    (∃ err, load_static_gtfs none (some (tableWith "stop_id"))
      (some (tableWith "trip_id")) = .error err)
    ∧ ((∃ rt, some (tableWith "route_id") = some rt ∧ "route_id" ∈ rt.columns)
       ∧ (∃ st, some (tableWith "stop_id") = some st ∧ "stop_id" ∈ st.columns)
       ∧ (∃ tt, some (tableWith "trip_id") = some tt ∧ "trip_id" ∈ tt.columns)) :=
  ⟨(catalog_load_all_or_nothing none (some (tableWith "stop_id"))
      (some (tableWith "trip_id"))).2 (by simp),
   (catalog_load_all_or_nothing (some (tableWith "route_id"))
      (some (tableWith "stop_id")) (some (tableWith "trip_id"))).1
      catLoaded rfl⟩

/-- The duplicate-index error path of the load model on a concrete input: a
routes table that parses and has its `route_id` column, but with the key
`"k1"` duplicated, makes `load_static_gtfs` raise the
`to_dict(orient="index")` `ValueError` — a `LoadError`, not a catalog. -/
theorem load_duplicate_index_errors :
    load_static_gtfs (some tableDupRoutes) (some (tableWith "stop_id"))
      (some (tableWith "trip_id"))
      = .error (.duplicateIndex "routes.txt") := by
  simp [load_static_gtfs, read_csv, set_index_to_dict, tableDupRoutes,
    tableWith, dupKeys, indexKey]

/-- C10.  Order preservation: each endpoint emits its records as the
in-order `filterMap` of the feed's entity list (one record per entity of
the matching kind, in feed order), and within a trip-update record the
`stop_updates` list is the in-order `map` of the feed's stop-time updates. -/
theorem order_preservation (cat : Catalog) (feed : FeedMessage) :
    api_vehicles cat feed
      = feed.entity.filterMap (fun e => e.vehicle.map (vehicleRecord cat e))
    ∧ api_trip_updates cat feed
      = feed.entity.filterMap
          (fun e => e.trip_update.map (tripUpdateRecord cat e))
    ∧ api_alerts feed
      = feed.entity.filterMap (fun e => e.alert.map (alertRecord e))
    ∧ ∀ e ∈ feed.entity, ∀ tu, e.trip_update = some tu →
        (tripUpdateRecord cat e tu).stop_updates
          = tu.stop_time_update.map (stopUpdateRecord cat) :=
  ⟨api_vehicles_eq_filterMap cat feed, api_trip_updates_eq_filterMap cat feed,
   api_alerts_eq_filterMap feed, fun e _ tu _ => stop_updates_eq_map cat e tu⟩

/-- C10 (witness).  Concrete instance on the single-trip-update feed. -/
theorem order_preservation_witness :
    (tripUpdateRecord catEmpty entNoTimes tuNoTimes).stop_updates
      = tuNoTimes.stop_time_update.map (stopUpdateRecord catEmpty)
    ∧ api_trip_updates catEmpty feedNoTimes
      = feedNoTimes.entity.filterMap
          (fun e => e.trip_update.map (tripUpdateRecord catEmpty e)) :=
  ⟨(order_preservation catEmpty feedNoTimes).2.2.2 entNoTimes
      (by simp [feedNoTimes]) tuNoTimes rfl,
   (order_preservation catEmpty feedNoTimes).2.1⟩
